import Mathlib

/-!
Verification of the music-classification-api examples:
a shallow embedding of src/examples/mock_inference.py (the Inference
Adapter) and src/examples/test_api.py (the Conformance Harness),
with theorems settling the specification claims about them.

Modelling conventions:
* The filesystem is a finite association list from path to byte size.
  pathlib touch on an absent path creates a zero-byte file; writing a
  file records its size; os.remove deletes the entry.
* Randomness (random.choice / random.uniform in mock_analyze_audio) is
  passed in explicitly as a Draws record; the contract of random.uniform
  (result lies in the closed range) becomes the hypothesis Draws.Valid.
* Real numbers are modelled as rationals.
* argparse behaviour is part of the embedding because the claims speak
  about it: choices=["json"] on --output-format makes argparse reject
  any other value before the main body runs, printing a usage message
  and exiting with status 2; --model-path is required, so the parsed
  argument record always carries it.
-/

/-- Filesystem state: an association list from existing path to file size
in bytes. -/
abbrev FS := List (String × Nat)

/-- Path existence test, mirroring pathlib Path.exists(). -/
def FS.pathExists (fs : FS) (p : String) : Bool :=
  fs.any (fun e => e.1 == p)

/-- Model of pathlib Path.touch(): creates a zero-byte file when the path
is absent, leaves content unchanged when it is present. -/
def FS.touch (fs : FS) (p : String) : FS :=
  if FS.pathExists fs p then fs else (p, 0) :: fs

/-- Model of os.remove: drops the entry for the path. -/
def FS.removeFile (fs : FS) (p : String) : FS :=
  fs.filter (fun e => !(e.1 == p))

/-- Model of opening a path for writing and writing size bytes. -/
def FS.write (fs : FS) (p : String) (size : Nat) : FS :=
  (p, size) :: FS.removeFile fs p

/-- Size of the file at a path, when present. -/
def FS.sizeOf (fs : FS) (p : String) : Option Nat :=
  (fs.find? (fun e => e.1 == p)).map Prod.snd

/-- Python truthiness of an optional string argument: None and the empty
string are falsy, every other string is truthy. -/
def pyTruthy : Option String → Bool
  | none => false
  | some s => !(s == "")

/-- Python `a or b` on two optional strings: the first operand when it is
truthy, otherwise the second. -/
def pyOr (a b : Option String) : Option String :=
  if pyTruthy a then a else b

/-- Parsed command-line arguments of mock_inference.py. model_path is
required by argparse; output_format defaults to "json". -/
structure Args where
  audio_file : Option String := none
  features_file : Option String := none
  spectrogram_file : Option String := none
  model_path : String
  output_format : String := "json"

/-- Value carried by one prediction field: a categorical label (genre,
mood, key) or a numeric value (bpm). -/
inductive PredValue where
  | label (s : String)
  | value (q : ℚ)
deriving DecidableEq

/-- One prediction field: a label or value paired with a confidence. -/
structure PredictionField where
  val : PredValue
  confidence : ℚ
deriving DecidableEq

/-- Metadata block of the response produced by mock_analyze_audio. -/
structure Metadata where
  model_version : String
  processing_time_seconds : ℚ
  audio_duration_seconds : ℚ
deriving DecidableEq

/-- Analysis response: predictions as an ordered association list (Python
dict literals preserve insertion order), plus metadata. -/
structure Response where
  predictions : List (String × PredictionField)
  metadata : Metadata
deriving DecidableEq

/-- Genre enumeration from mock_analyze_audio. -/
def genres : List String :=
  ["rock", "pop", "jazz", "classical", "electronic", "hip_hop", "country", "blues"]

/-- Mood enumeration from mock_analyze_audio. -/
def moods : List String :=
  ["happy", "sad", "energetic", "calm", "aggressive"]

/-- Key enumeration from mock_analyze_audio: the twelve pitch classes in
sharps notation, written as two halves joined by append. -/
def keys : List String :=
  ["C", "C#", "D", "D#", "E", "F"] ++ ["F#", "G", "G#", "A", "A#", "B"]

/-- Outcomes of the random draws performed by one call of
mock_analyze_audio: random.choice indices and random.uniform results. -/
structure Draws where
  genreIdx : Fin 8
  moodIdx : Fin 5
  keyIdx : Fin 12
  bpmRaw : ℚ
  genreConf : ℚ
  moodConf : ℚ
  bpmConf : ℚ
  keyConf : ℚ
  processing_time_seconds : ℚ
  audio_duration_seconds : ℚ

/-- Contract of random.uniform(a, b): each drawn value lies in the closed
range given at the corresponding call site of mock_analyze_audio. -/
def Draws.Valid (r : Draws) : Prop :=
  60 ≤ r.bpmRaw ∧ r.bpmRaw ≤ 180 ∧
  (0.6 : ℚ) ≤ r.genreConf ∧ r.genreConf ≤ 0.95 ∧
  (0.6 : ℚ) ≤ r.moodConf ∧ r.moodConf ≤ 0.95 ∧
  (0.7 : ℚ) ≤ r.bpmConf ∧ r.bpmConf ≤ 0.95 ∧
  (0.5 : ℚ) ≤ r.keyConf ∧ r.keyConf ≤ 0.9 ∧
  1 ≤ r.processing_time_seconds ∧ r.processing_time_seconds ≤ 3 ∧
  30 ≤ r.audio_duration_seconds ∧ r.audio_duration_seconds ≤ 300

instance (r : Draws) : Decidable r.Valid := by
  unfold Draws.Valid; infer_instance

/-- Rounding to one decimal place, as in round(bpm, 1). Only the facts
that the result is a multiple of one tenth and stays inside the range of
the argument are relied on, so the half-way tie convention is immaterial. -/
def round1 (x : ℚ) : ℚ := (round (10 * x) : ℤ) / 10

/-- Embedding of mock_analyze_audio of src/examples/mock_inference.py.
The two path arguments are accepted and ignored exactly as in the
source, where they do not influence the constructed response. -/
def mock_analyze_audio (audio_file_path : Option String) (model_path : String)
    (r : Draws) : Response :=
  let genre := genres.get (Fin.cast (by decide) r.genreIdx)
  let mood := moods.get (Fin.cast (by decide) r.moodIdx)
  let bpm := r.bpmRaw
  let key := keys.get (Fin.cast (by decide) r.keyIdx)
  { predictions :=
      [("genre", { val := PredValue.label genre, confidence := r.genreConf }),
       ("mood", { val := PredValue.label mood, confidence := r.moodConf }),
       ("bpm", { val := PredValue.value (round1 bpm), confidence := r.bpmConf }),
       ("key", { val := PredValue.label key, confidence := r.keyConf })],
    metadata :=
      { model_version := "1.0.0",
        processing_time_seconds := r.processing_time_seconds,
        audio_duration_seconds := r.audio_duration_seconds } }

/-- Observable result of one Adapter invocation: parseError is the
argparse rejection path (usage message on standard error, exit status 2);
success carries the single-line JSON AnalysisResponse printed on standard
output with exit status 0; failure carries the error message and the
exception class name printed as a single-line JSON object on standard
error with exit status 1. -/
inductive RunResult where
  | parseError
  | success (resp : Response)
  | failure (error : String) (type : String)
deriving DecidableEq

/-- Process exit status of each result kind. -/
def RunResult.exitCode : RunResult → Nat
  | .parseError => 2
  | .success _ => 0
  | .failure _ _ => 1

/-- Error type field of the emitted error object, when one is emitted. -/
def RunResult.errType : RunResult → Option String
  | .parseError => none
  | .success _ => none
  | .failure _ t => some t

/-- Embedding of the try block of main in src/examples/mock_inference.py:
input-mode validation, audio existence check, lazy model placeholder
creation, analysis, JSON output. The raised ValueError and
FileNotFoundError are caught by the handler at the bottom of main, which
prints the message and the exception class name and exits 1. -/
def MockInference.body (args : Args) (fs : FS) (r : Draws) : RunResult × FS :=
  if !(pyTruthy args.audio_file) &&
      !(pyTruthy args.features_file && pyTruthy args.spectrogram_file) then
    (RunResult.failure
      "Either --audio-file or both --features-file and --spectrogram-file must be provided"
      "ValueError", fs)
  else if pyTruthy args.audio_file &&
      !(FS.pathExists fs (args.audio_file.getD "")) then
    (RunResult.failure
      ("Audio file not found: " ++ args.audio_file.getD "")
      "FileNotFoundError", fs)
  else
    let fs1 := if FS.pathExists fs args.model_path then fs
               else FS.touch fs args.model_path
    let result := mock_analyze_audio (pyOr args.audio_file args.features_file)
      args.model_path r
    (RunResult.success result, fs1)

/-- Embedding of main in src/examples/mock_inference.py, including the
argparse boundary: choices=["json"] makes argparse reject any other
output format with a usage error (exit status 2) before the try block
runs, so no filesystem effect happens on that path. -/
def MockInference.run (args : Args) (fs : FS) (r : Draws) : RunResult × FS :=
  if args.output_format == "json" then MockInference.body args fs r
  else (RunResult.parseError, fs)

/-- Transport-level outcome the Harness observes for one HTTP request:
either a completed response carrying a status code and a flag saying
whether the body parses as JSON, or a raised exception (connection
refused, timeout, and the like). -/
inductive Transport where
  | ok (status : Nat) (jsonBody : Bool)
  | exn
deriving DecidableEq

/-- Behaviour of the service under test, one transport outcome per
endpoint the Harness exercises. -/
structure Service where
  health : Transport
  info : Transport
  analyze : Transport
  upload : Transport
  preprocessed : Transport

/-- Shared shape of every check in src/examples/test_api.py: the request
and the printing of the parsed body sit inside a try block, so a raised
exception or a body that fails to parse as JSON is caught and turns into
False; otherwise the check returns whether the status code is exactly 200. -/
def checkOutcome (t : Transport) : Bool :=
  match t with
  | Transport.ok status jsonBody => jsonBody && (status == 200)
  | Transport.exn => false

/-- Embedding of test_health_endpoint of src/examples/test_api.py. -/
def test_health_endpoint (t : Transport) : Bool :=
  checkOutcome t

/-- Embedding of test_info_endpoint of src/examples/test_api.py. -/
def test_info_endpoint (t : Transport) : Bool :=
  checkOutcome t

/-- Path and size of the dummy WAV file written by
create_dummy_audio_file: a 44 byte RIFF header. -/
def dummyAudioPath : String := "temp/test_audio.wav"

/-- Embedding of create_dummy_audio_file of src/examples/test_api.py. -/
def create_dummy_audio_file (fs : FS) : FS :=
  FS.write fs dummyAudioPath 44

/-- Embedding of test_analyze_with_json of src/examples/test_api.py: the
dummy audio file is written, the POST and the body printing may raise
(caught, check fails, file persists); on a parsed body the file is
removed before returning whether the status was 200. -/
def test_analyze_with_json (t : Transport) (fs : FS) : Bool × FS :=
  let fs1 := create_dummy_audio_file fs
  match t with
  | Transport.ok status true =>
      (status == 200, FS.removeFile fs1 dummyAudioPath)
  | Transport.ok _ false => (false, fs1)
  | Transport.exn => (false, fs1)

/-- Embedding of test_upload_endpoint of src/examples/test_api.py, same
cleanup structure as the JSON analyze check. -/
def test_upload_endpoint (t : Transport) (fs : FS) : Bool × FS :=
  let fs1 := create_dummy_audio_file fs
  match t with
  | Transport.ok status true =>
      (status == 200, FS.removeFile fs1 dummyAudioPath)
  | Transport.ok _ false => (false, fs1)
  | Transport.exn => (false, fs1)

/-- Scratch path of the dummy features artifact. -/
def featuresPath : String := "temp/dummy_features.json"

/-- Scratch path of the dummy spectrogram artifact. -/
def spectrogramPath : String := "temp/dummy_spectrogram.npy"

/-- Embedding of test_preprocessed_endpoint of src/examples/test_api.py:
both scratch artifacts are written (21 and 22 bytes of dummy content),
then the POST runs; the os.remove cleanup calls sit inside the try block
after the response printing, so they run only when the request completed
and the body parsed as JSON — on an exception the artifacts persist. -/
def test_preprocessed_endpoint (t : Transport) (fs : FS) : Bool × FS :=
  let fs1 := FS.write (FS.write fs featuresPath 21) spectrogramPath 22
  match t with
  | Transport.ok status true =>
      (status == 200,
        FS.removeFile (FS.removeFile fs1 featuresPath) spectrogramPath)
  | Transport.ok _ false => (false, fs1)
  | Transport.exn => (false, fs1)

/-- Embedding of main of src/examples/test_api.py: the five checks run
strictly in order, each wrapped so that no exception escapes (the check
functions already catch every exception internally), and every outcome is
appended to the results list under its fixed display name. -/
def TestApi.main (svc : Service) (fs : FS) : List (String × Bool) × FS :=
  let r1 := test_health_endpoint svc.health
  let r2 := test_info_endpoint svc.info
  let p3 := test_analyze_with_json svc.analyze fs
  let p4 := test_upload_endpoint svc.upload p3.2
  let p5 := test_preprocessed_endpoint svc.preprocessed p4.2
  ([("Health Check", r1), ("API Info", r2), ("JSON Analysis", p3.1),
    ("File Upload", p4.1), ("Preprocessed Data", p5.1)], p5.2)

/-- Count of passing outcomes, as computed in the summary of main. -/
def passedCount (results : List (String × Bool)) : Nat :=
  (results.filter (fun e => e.2)).length

/-- Condition under which main prints the all-tests-passed message:
passed equals total. -/
def overallSuccess (results : List (String × Bool)) : Bool :=
  passedCount results == results.length

/-- Removing a path really removes it: afterwards the existence test on
that path is false. -/
theorem FS.pathExists_removeFile_self (fs : FS) (p : String) :
    FS.pathExists (FS.removeFile fs p) p = false := by
  induction fs with
  | nil => rfl
  | cons e rest ih =>
      by_cases h : e.1 = p
      · simpa [FS.removeFile, FS.pathExists, h] using ih
      · simpa [FS.removeFile, FS.pathExists, h] using ih

/-- Rounding is monotone on rationals. -/
theorem round_mono_q {x y : ℚ} (h : x ≤ y) : round x ≤ round y := by
  rw [round_eq, round_eq]
  exact Int.floor_mono (by linarith)

/-- Lower bound of round1 on the bpm range. -/
theorem round1_lower {x : ℚ} (h : 60 ≤ x) : 60 ≤ round1 x := by
  unfold round1
  rw [le_div_iff₀ (by norm_num : (0:ℚ) < 10)]
  have h1 : (600 : ℤ) ≤ round (10 * x) := by
    rw [round_eq, Int.le_floor]
    push_cast
    linarith
  calc (60 : ℚ) * 10 = ((600 : ℤ) : ℚ) := by norm_num
    _ ≤ ((round (10 * x) : ℤ) : ℚ) := by exact_mod_cast h1

/-- Upper bound of round1 on the bpm range. -/
theorem round1_upper {x : ℚ} (h : x ≤ 180) : round1 x ≤ 180 := by
  unfold round1
  rw [div_le_iff₀ (by norm_num : (0:ℚ) < 10)]
  have h1 : round (10 * x) ≤ (1800 : ℤ) := by
    rw [round_eq, Int.floor_le_iff]
    push_cast
    linarith
  calc ((round (10 * x) : ℤ) : ℚ) ≤ ((1800 : ℤ) : ℚ) := by exact_mod_cast h1
    _ = 180 * 10 := by norm_num

/-- Result of round1 is an integer number of tenths. -/
theorem round1_tenths (x : ℚ) : ∃ n : ℤ, round1 x = (n : ℚ) / 10 :=
  ⟨round (10 * x), rfl⟩

/-- C1: for every Mode-A invocation of the Adapter whose audio reference
resolves to an existing file (any model path), the Adapter exits 0 and the
emitted predictions mapping contains exactly the four fields in insertion
order genre, mood, bpm, key, with genre and mood confidence in
[0.6, 0.95], bpm confidence in [0.7, 0.95], key confidence in [0.5, 0.9],
the bpm value inside [60, 180] and an integer number of tenths, and the
genre, mood and key labels drawn from the fixed enumerations. -/
theorem claim_C1_mode_a_valid_response (args : Args) (fs : FS) (r : Draws)
    (a : String) (ha : args.audio_file = some a) (hne : a ≠ "")
    (hex : FS.pathExists fs a = true)
    (hfmt : args.output_format = "json") (hr : r.Valid) :
    ∃ resp, (MockInference.run args fs r).1 = RunResult.success resp ∧
      RunResult.exitCode (MockInference.run args fs r).1 = 0 ∧
      resp.predictions.map Prod.fst = ["genre", "mood", "bpm", "key"] ∧
      ∃ gl ml kl bv gc mc bc kc,
        resp.predictions =
          [("genre", ⟨PredValue.label gl, gc⟩),
           ("mood", ⟨PredValue.label ml, mc⟩),
           ("bpm", ⟨PredValue.value bv, bc⟩),
           ("key", ⟨PredValue.label kl, kc⟩)] ∧
        gl ∈ genres ∧ ml ∈ moods ∧ kl ∈ keys ∧
        (0.6:ℚ) ≤ gc ∧ gc ≤ 0.95 ∧ (0.6:ℚ) ≤ mc ∧ mc ≤ 0.95 ∧
        (0.7:ℚ) ≤ bc ∧ bc ≤ 0.95 ∧ (0.5:ℚ) ≤ kc ∧ kc ≤ 0.9 ∧
        60 ≤ bv ∧ bv ≤ 180 ∧ ∃ n : ℤ, bv = (n : ℚ) / 10 := by
  obtain ⟨hb1, hb2, hg1, hg2, hm1, hm2, hc1, hc2, hk1, hk2, _⟩ := hr
  have hta : pyTruthy (some a) = true := by
    simp [pyTruthy, hne]
  have hrun : (MockInference.run args fs r).1 =
      RunResult.success (mock_analyze_audio (pyOr args.audio_file args.features_file)
        args.model_path r) := by
    simp only [MockInference.run, MockInference.body, hfmt, beq_self_eq_true, if_true,
      ha, hta, Option.getD_some, hex]
    simp
  refine ⟨_, hrun, by rw [hrun]; rfl, rfl, ?_⟩
  refine ⟨_, _, _, _, _, _, _, _, rfl, ?_⟩
  refine ⟨List.get_mem _ _ _, List.get_mem _ _ _, List.get_mem _ _ _, ?_⟩
  exact ⟨hg1, hg2, hm1, hm2, hc1, hc2, hk1, hk2,
    round1_lower hb1, round1_upper hb2, round1_tenths _⟩

/-- Witness for C1: a concrete Mode-A invocation on an existing audio
file with an absent model path. -/
theorem claim_C1_mode_a_valid_response_witness :
    ∃ resp, (MockInference.run
        { audio_file := some "song.mp3", model_path := "models/model.pth" }
        [("song.mp3", 44)]
        { genreIdx := 0, moodIdx := 0, keyIdx := 0, bpmRaw := 120,
          genreConf := 0.7, moodConf := 0.7, bpmConf := 0.8, keyConf := 0.6,
          processing_time_seconds := 2, audio_duration_seconds := 60 }).1
      = RunResult.success resp ∧
      RunResult.exitCode (MockInference.run
        { audio_file := some "song.mp3", model_path := "models/model.pth" }
        [("song.mp3", 44)]
        { genreIdx := 0, moodIdx := 0, keyIdx := 0, bpmRaw := 120,
          genreConf := 0.7, moodConf := 0.7, bpmConf := 0.8, keyConf := 0.6,
          processing_time_seconds := 2, audio_duration_seconds := 60 }).1 = 0 ∧
      resp.predictions.map Prod.fst = ["genre", "mood", "bpm", "key"] ∧
      ∃ gl ml kl bv gc mc bc kc,
        resp.predictions =
          [("genre", ⟨PredValue.label gl, gc⟩),
           ("mood", ⟨PredValue.label ml, mc⟩),
           ("bpm", ⟨PredValue.value bv, bc⟩),
           ("key", ⟨PredValue.label kl, kc⟩)] ∧
        gl ∈ genres ∧ ml ∈ moods ∧ kl ∈ keys ∧
        (0.6:ℚ) ≤ gc ∧ gc ≤ 0.95 ∧ (0.6:ℚ) ≤ mc ∧ mc ≤ 0.95 ∧
        (0.7:ℚ) ≤ bc ∧ bc ≤ 0.95 ∧ (0.5:ℚ) ≤ kc ∧ kc ≤ 0.9 ∧
        60 ≤ bv ∧ bv ≤ 180 ∧ ∃ n : ℤ, bv = (n : ℚ) / 10 :=
  claim_C1_mode_a_valid_response _ _ _ "song.mp3" rfl (by decide) (by decide)
    rfl (by norm_num [Draws.Valid])

/-- Valid input mode of the Adapter: either a truthy audio argument whose
path exists, or Mode B with truthy features and spectrogram arguments. -/
def ValidInputMode (args : Args) (fs : FS) : Prop :=
  (∃ a, args.audio_file = some a ∧ a ≠ "" ∧ FS.pathExists fs a = true) ∨
  (pyTruthy args.audio_file = false ∧ pyTruthy args.features_file = true ∧
    pyTruthy args.spectrogram_file = true)

/-- Success path of the Adapter: under a json output format and a valid
input mode, the run returns the mock analysis response and touches the
model path exactly when it is absent. -/
theorem MockInference.run_success (args : Args) (fs : FS) (r : Draws)
    (hfmt : args.output_format = "json") (hmode : ValidInputMode args fs) :
    MockInference.run args fs r =
      (RunResult.success (mock_analyze_audio
          (pyOr args.audio_file args.features_file) args.model_path r),
        if FS.pathExists fs args.model_path then fs
        else FS.touch fs args.model_path) := by
  rcases hmode with ⟨a, ha, hne, hex⟩ | ⟨ha, hf, hs⟩
  · have hta : pyTruthy (some a) = true := by simp [pyTruthy, hne]
    simp only [MockInference.run, MockInference.body, hfmt, beq_self_eq_true,
      if_true, ha, hta, Option.getD_some, hex]
    simp
  · simp only [MockInference.run, MockInference.body, hfmt, beq_self_eq_true,
      if_true, ha, hf, hs]
    simp

/-- Touching a path makes it exist. -/
theorem FS.pathExists_touch_self (fs : FS) (p : String) :
    FS.pathExists (FS.touch fs p) p = true := by
  by_cases h : FS.pathExists fs p = true
  · rw [FS.touch, if_pos h]; exact h
  · rw [FS.touch, if_neg h]
    unfold FS.pathExists
    simp [List.any_cons]

/-- Touching one path keeps every existing path in existence. -/
theorem FS.pathExists_touch_of (fs : FS) (p q : String)
    (h : FS.pathExists fs p = true) :
    FS.pathExists (FS.touch fs q) p = true := by
  by_cases hq : FS.pathExists fs q = true
  · rw [FS.touch, if_pos hq]; exact h
  · rw [FS.touch, if_neg hq]
    unfold FS.pathExists at h ⊢
    simp [List.any_cons, h]

/-- Touching an absent path creates a zero-byte file there. -/
theorem FS.sizeOf_touch_self (fs : FS) (p : String)
    (h : FS.pathExists fs p = false) :
    FS.sizeOf (FS.touch fs p) p = some 0 := by
  simp [FS.touch, h, FS.sizeOf, List.find?]

/-- Counterexample to C2 as stated: an invocation with neither input mode
exits 1 but the emitted error type field is the Python exception class
name ValueError, not ValidationError. -/
theorem claim_C2_counterexample :
    (MockInference.run { model_path := "model.pth" } []
      { genreIdx := 0, moodIdx := 0, keyIdx := 0, bpmRaw := 120, genreConf := 1,
        moodConf := 1, bpmConf := 1, keyConf := 1, processing_time_seconds := 1,
        audio_duration_seconds := 1 }).1 =
      RunResult.failure
        "Either --audio-file or both --features-file and --spectrogram-file must be provided"
        "ValueError" ∧
    RunResult.errType (MockInference.run { model_path := "model.pth" } []
      { genreIdx := 0, moodIdx := 0, keyIdx := 0, bpmRaw := 120, genreConf := 1,
        moodConf := 1, bpmConf := 1, keyConf := 1, processing_time_seconds := 1,
        audio_duration_seconds := 1 }).1 ≠ some "ValidationError" := by
  constructor
  · rfl
  · decide

/-- C2 amended: for every Adapter invocation that passes argument parsing
and supplies no truthy audio argument and not both a truthy features
argument and a truthy spectrogram argument, the run exits 1 and emits an
error object whose type field is ValueError (the raised Python exception
class, the validation-error kind of the taxonomy) with the mandated
message, and the filesystem is untouched. -/
theorem claim_C2_missing_modes_value_error (args : Args) (fs : FS) (r : Draws)
    (hfmt : args.output_format = "json")
    (ha : pyTruthy args.audio_file = false)
    (hb : (pyTruthy args.features_file && pyTruthy args.spectrogram_file) = false) :
    MockInference.run args fs r =
      (RunResult.failure
        "Either --audio-file or both --features-file and --spectrogram-file must be provided"
        "ValueError", fs) ∧
    RunResult.exitCode (MockInference.run args fs r).1 = 1 := by
  have h1 : MockInference.run args fs r =
      (RunResult.failure
        "Either --audio-file or both --features-file and --spectrogram-file must be provided"
        "ValueError", fs) := by
    simp only [MockInference.run, MockInference.body, hfmt, beq_self_eq_true,
      if_true, ha, hb]
    simp
  exact ⟨h1, by rw [h1]; rfl⟩

/-- Witness for the amended C2 at a concrete invocation supplying only a
spectrogram argument. -/
theorem claim_C2_missing_modes_value_error_witness :
    MockInference.run
        { spectrogram_file := some "spec.npy", model_path := "model.pth" }
        [("model.pth", 0)]
        { genreIdx := 0, moodIdx := 0, keyIdx := 0, bpmRaw := 120, genreConf := 1,
          moodConf := 1, bpmConf := 1, keyConf := 1, processing_time_seconds := 1,
          audio_duration_seconds := 1 } =
      (RunResult.failure
        "Either --audio-file or both --features-file and --spectrogram-file must be provided"
        "ValueError", [("model.pth", 0)]) ∧
    RunResult.exitCode (MockInference.run
        { spectrogram_file := some "spec.npy", model_path := "model.pth" }
        [("model.pth", 0)]
        { genreIdx := 0, moodIdx := 0, keyIdx := 0, bpmRaw := 120, genreConf := 1,
          moodConf := 1, bpmConf := 1, keyConf := 1, processing_time_seconds := 1,
          audio_duration_seconds := 1 }).1 = 1 :=
  claim_C2_missing_modes_value_error _ _ _ rfl (by decide) (by decide)

/-- C5: for every invocation that passes argument parsing whose audio
argument is truthy but does not resolve to an existing file, the Adapter
exits 1 with error type FileNotFoundError (the not-found kind of the
taxonomy), regardless of the model path, and the filesystem is untouched,
so no placeholder model file is created. -/
theorem claim_C5_audio_not_found (args : Args) (fs : FS) (r : Draws) (a : String)
    (hfmt : args.output_format = "json")
    (ha : args.audio_file = some a) (hne : a ≠ "")
    (hex : FS.pathExists fs a = false) :
    MockInference.run args fs r =
      (RunResult.failure ("Audio file not found: " ++ a) "FileNotFoundError", fs) ∧
    RunResult.exitCode (MockInference.run args fs r).1 = 1 ∧
    RunResult.errType (MockInference.run args fs r).1 = some "FileNotFoundError" := by
  have hta : pyTruthy (some a) = true := by simp [pyTruthy, hne]
  have h1 : MockInference.run args fs r =
      (RunResult.failure ("Audio file not found: " ++ a) "FileNotFoundError", fs) := by
    simp only [MockInference.run, MockInference.body, hfmt, beq_self_eq_true,
      if_true, ha, hta, Option.getD_some, hex]
    simp
  exact ⟨h1, by rw [h1]; rfl, by rw [h1]; rfl⟩

/-- Witness for C5: missing audio file, absent model path, and the
filesystem stays empty, so no placeholder appears. -/
theorem claim_C5_audio_not_found_witness :
    MockInference.run
        { audio_file := some "missing.mp3", model_path := "model.pth" } []
        { genreIdx := 0, moodIdx := 0, keyIdx := 0, bpmRaw := 120, genreConf := 1,
          moodConf := 1, bpmConf := 1, keyConf := 1, processing_time_seconds := 1,
          audio_duration_seconds := 1 } =
      (RunResult.failure ("Audio file not found: " ++ "missing.mp3")
        "FileNotFoundError", []) ∧
    RunResult.exitCode (MockInference.run
        { audio_file := some "missing.mp3", model_path := "model.pth" } []
        { genreIdx := 0, moodIdx := 0, keyIdx := 0, bpmRaw := 120, genreConf := 1,
          moodConf := 1, bpmConf := 1, keyConf := 1, processing_time_seconds := 1,
          audio_duration_seconds := 1 }).1 = 1 ∧
    RunResult.errType (MockInference.run
        { audio_file := some "missing.mp3", model_path := "model.pth" } []
        { genreIdx := 0, moodIdx := 0, keyIdx := 0, bpmRaw := 120, genreConf := 1,
          moodConf := 1, bpmConf := 1, keyConf := 1, processing_time_seconds := 1,
          audio_duration_seconds := 1 }).1 = some "FileNotFoundError" :=
  claim_C5_audio_not_found _ _ _ "missing.mp3" rfl rfl (by decide) (by decide)

/-- C3: for every invocation that passes argument parsing, has a valid
input mode and a model path that does not resolve to an existing file,
the run succeeds (exit 0) and afterwards a zero-byte placeholder exists
at the model path; re-invoking on the resulting filesystem with the same
arguments succeeds again and leaves the filesystem unchanged. -/
theorem claim_C3_lazy_model_placeholder (args : Args) (fs : FS) (r rr : Draws)
    (hfmt : args.output_format = "json") (hmode : ValidInputMode args fs)
    (hm : FS.pathExists fs args.model_path = false) :
    MockInference.run args fs r =
      (RunResult.success (mock_analyze_audio
          (pyOr args.audio_file args.features_file) args.model_path r),
        FS.touch fs args.model_path) ∧
    RunResult.exitCode (MockInference.run args fs r).1 = 0 ∧
    FS.pathExists (MockInference.run args fs r).2 args.model_path = true ∧
    FS.sizeOf (MockInference.run args fs r).2 args.model_path = some 0 ∧
    MockInference.run args (MockInference.run args fs r).2 rr =
      (RunResult.success (mock_analyze_audio
          (pyOr args.audio_file args.features_file) args.model_path rr),
        (MockInference.run args fs r).2) := by
  have h1 : MockInference.run args fs r =
      (RunResult.success (mock_analyze_audio
          (pyOr args.audio_file args.features_file) args.model_path r),
        FS.touch fs args.model_path) := by
    rw [MockInference.run_success args fs r hfmt hmode]
    simp [hm]
  have hmode1 : ValidInputMode args (FS.touch fs args.model_path) := by
    rcases hmode with ⟨a, ha, hne, hex⟩ | hB
    · exact Or.inl ⟨a, ha, hne, FS.pathExists_touch_of fs a args.model_path hex⟩
    · exact Or.inr hB
  refine ⟨h1, by rw [h1]; rfl, ?_, ?_, ?_⟩
  · rw [h1]; exact FS.pathExists_touch_self fs args.model_path
  · rw [h1]; exact FS.sizeOf_touch_self fs args.model_path hm
  · rw [h1]
    rw [MockInference.run_success args _ rr hfmt hmode1]
    simp [FS.pathExists_touch_self]

/-- Witness for C3: a concrete Mode-A invocation whose model path is
absent; the placeholder appears and the re-invocation is stable. -/
theorem claim_C3_lazy_model_placeholder_witness :
    MockInference.run
        { audio_file := some "a.wav", model_path := "models/m.pth" }
        [("a.wav", 44)]
        { genreIdx := 1, moodIdx := 1, keyIdx := 1, bpmRaw := 100, genreConf := 1,
          moodConf := 1, bpmConf := 1, keyConf := 1, processing_time_seconds := 1,
          audio_duration_seconds := 1 } =
      (RunResult.success (mock_analyze_audio
          (pyOr (some "a.wav") none) "models/m.pth"
          { genreIdx := 1, moodIdx := 1, keyIdx := 1, bpmRaw := 100, genreConf := 1,
            moodConf := 1, bpmConf := 1, keyConf := 1, processing_time_seconds := 1,
            audio_duration_seconds := 1 }),
        FS.touch [("a.wav", 44)] "models/m.pth") ∧
    RunResult.exitCode (MockInference.run
        { audio_file := some "a.wav", model_path := "models/m.pth" }
        [("a.wav", 44)]
        { genreIdx := 1, moodIdx := 1, keyIdx := 1, bpmRaw := 100, genreConf := 1,
          moodConf := 1, bpmConf := 1, keyConf := 1, processing_time_seconds := 1,
          audio_duration_seconds := 1 }).1 = 0 ∧
    FS.pathExists (MockInference.run
        { audio_file := some "a.wav", model_path := "models/m.pth" }
        [("a.wav", 44)]
        { genreIdx := 1, moodIdx := 1, keyIdx := 1, bpmRaw := 100, genreConf := 1,
          moodConf := 1, bpmConf := 1, keyConf := 1, processing_time_seconds := 1,
          audio_duration_seconds := 1 }).2 "models/m.pth" = true ∧
    FS.sizeOf (MockInference.run
        { audio_file := some "a.wav", model_path := "models/m.pth" }
        [("a.wav", 44)]
        { genreIdx := 1, moodIdx := 1, keyIdx := 1, bpmRaw := 100, genreConf := 1,
          moodConf := 1, bpmConf := 1, keyConf := 1, processing_time_seconds := 1,
          audio_duration_seconds := 1 }).2 "models/m.pth" = some 0 ∧
    MockInference.run
        { audio_file := some "a.wav", model_path := "models/m.pth" }
        (MockInference.run
          { audio_file := some "a.wav", model_path := "models/m.pth" }
          [("a.wav", 44)]
          { genreIdx := 1, moodIdx := 1, keyIdx := 1, bpmRaw := 100, genreConf := 1,
            moodConf := 1, bpmConf := 1, keyConf := 1, processing_time_seconds := 1,
            audio_duration_seconds := 1 }).2
        { genreIdx := 1, moodIdx := 1, keyIdx := 1, bpmRaw := 100, genreConf := 1,
          moodConf := 1, bpmConf := 1, keyConf := 1, processing_time_seconds := 1,
          audio_duration_seconds := 1 } =
      (RunResult.success (mock_analyze_audio
          (pyOr (some "a.wav") none) "models/m.pth"
          { genreIdx := 1, moodIdx := 1, keyIdx := 1, bpmRaw := 100, genreConf := 1,
            moodConf := 1, bpmConf := 1, keyConf := 1, processing_time_seconds := 1,
            audio_duration_seconds := 1 }),
        (MockInference.run
          { audio_file := some "a.wav", model_path := "models/m.pth" }
          [("a.wav", 44)]
          { genreIdx := 1, moodIdx := 1, keyIdx := 1, bpmRaw := 100, genreConf := 1,
            moodConf := 1, bpmConf := 1, keyConf := 1, processing_time_seconds := 1,
            audio_duration_seconds := 1 }).2) :=
  claim_C3_lazy_model_placeholder _ _ _ _ rfl
    (Or.inl ⟨"a.wav", rfl, by decide, by decide⟩) (by decide)

/-- C4: for every invocation requesting an output format other than json,
argparse rejects the invocation before the main body runs, so no analysis
happens and the filesystem is untouched: in particular no placeholder
model file is created. -/
theorem claim_C4_bad_output_format_boundary (args : Args) (fs : FS) (r : Draws)
    (hfmt : args.output_format ≠ "json") :
    MockInference.run args fs r = (RunResult.parseError, fs) ∧
    (MockInference.run args fs r).2 = fs := by
  have h1 : MockInference.run args fs r = (RunResult.parseError, fs) := by
    simp [MockInference.run, hfmt]
  exact ⟨h1, by rw [h1]⟩

/-- Witness for C4: requesting xml output on an empty filesystem leaves
the filesystem empty and takes the argparse rejection path. -/
theorem claim_C4_bad_output_format_boundary_witness :
    MockInference.run
        { audio_file := some "a.wav", model_path := "model.pth",
          output_format := "xml" } []
        { genreIdx := 0, moodIdx := 0, keyIdx := 0, bpmRaw := 120, genreConf := 1,
          moodConf := 1, bpmConf := 1, keyConf := 1, processing_time_seconds := 1,
          audio_duration_seconds := 1 } = (RunResult.parseError, []) ∧
    (MockInference.run
        { audio_file := some "a.wav", model_path := "model.pth",
          output_format := "xml" } []
        { genreIdx := 0, moodIdx := 0, keyIdx := 0, bpmRaw := 120, genreConf := 1,
          moodConf := 1, bpmConf := 1, keyConf := 1, processing_time_seconds := 1,
          audio_duration_seconds := 1 }).2 = [] :=
  claim_C4_bad_output_format_boundary _ _ _ (by decide)

/-- C10: for every Mode-B invocation that passes argument parsing (falsy
audio argument, truthy features and spectrogram arguments), the Adapter
performs no existence check on the features or spectrogram paths: it
succeeds with exit 0 on every filesystem, in particular on filesystems
where neither referenced file exists. -/
theorem claim_C10_mode_b_no_existence_check (args : Args) (fs : FS) (r : Draws)
    (hfmt : args.output_format = "json")
    (ha : pyTruthy args.audio_file = false)
    (hf : pyTruthy args.features_file = true)
    (hs : pyTruthy args.spectrogram_file = true) :
    (MockInference.run args fs r).1 =
      RunResult.success (mock_analyze_audio
        (pyOr args.audio_file args.features_file) args.model_path r) ∧
    RunResult.exitCode (MockInference.run args fs r).1 = 0 := by
  have h1 := MockInference.run_success args fs r hfmt (Or.inr ⟨ha, hf, hs⟩)
  exact ⟨by rw [h1], by rw [h1]; rfl⟩

/-- Witness for C10: a Mode-B invocation on the empty filesystem, where
neither the features nor the spectrogram file exists, still succeeds. -/
theorem claim_C10_mode_b_no_existence_check_witness :
    FS.pathExists [] "feat.json" = false ∧
    FS.pathExists [] "spec.npy" = false ∧
    ((MockInference.run
        { features_file := some "feat.json", spectrogram_file := some "spec.npy",
          model_path := "model.pth" } []
        { genreIdx := 2, moodIdx := 2, keyIdx := 2, bpmRaw := 90, genreConf := 1,
          moodConf := 1, bpmConf := 1, keyConf := 1, processing_time_seconds := 1,
          audio_duration_seconds := 1 }).1 =
      RunResult.success (mock_analyze_audio
        (pyOr none (some "feat.json")) "model.pth"
        { genreIdx := 2, moodIdx := 2, keyIdx := 2, bpmRaw := 90, genreConf := 1,
          moodConf := 1, bpmConf := 1, keyConf := 1, processing_time_seconds := 1,
          audio_duration_seconds := 1 }) ∧
    RunResult.exitCode (MockInference.run
        { features_file := some "feat.json", spectrogram_file := some "spec.npy",
          model_path := "model.pth" } []
        { genreIdx := 2, moodIdx := 2, keyIdx := 2, bpmRaw := 90, genreConf := 1,
          moodConf := 1, bpmConf := 1, keyConf := 1, processing_time_seconds := 1,
          audio_duration_seconds := 1 }).1 = 0) :=
  ⟨by decide, by decide,
    claim_C10_mode_b_no_existence_check _ _ _ rfl (by decide) (by decide) (by decide)⟩

/-- Counterexample to C6 as stated: an invocation requesting the xml
output format is rejected by argparse with a usage message and exit
status 2, which is neither the success shape with exit 0 nor the
single-line JSON error object with exit 1. -/
theorem claim_C6_counterexample :
    MockInference.run
        { audio_file := some "a.wav", model_path := "model.pth",
          output_format := "xml" } [("a.wav", 44)]
        { genreIdx := 0, moodIdx := 0, keyIdx := 0, bpmRaw := 120, genreConf := 1,
          moodConf := 1, bpmConf := 1, keyConf := 1, processing_time_seconds := 1,
          audio_duration_seconds := 1 } = (RunResult.parseError, [("a.wav", 44)]) ∧
    RunResult.exitCode (MockInference.run
        { audio_file := some "a.wav", model_path := "model.pth",
          output_format := "xml" } [("a.wav", 44)]
        { genreIdx := 0, moodIdx := 0, keyIdx := 0, bpmRaw := 120, genreConf := 1,
          moodConf := 1, bpmConf := 1, keyConf := 1, processing_time_seconds := 1,
          audio_duration_seconds := 1 }).1 = 2 ∧
    (2 : Nat) ≠ 0 ∧ (2 : Nat) ≠ 1 := by
  exact ⟨rfl, rfl, by decide, by decide⟩

/-- C6 amended: every invocation accepted by the argument parser (output
format json) terminates in exactly one of two mutually exclusive ways:
success, the AnalysisResponse emitted with exit 0, or failure, an error
object emitted with exit 1 — never both shapes and no other exit code;
invocations rejected by the parser exit 2 with a usage message instead. -/
theorem claim_C6_two_way_exit (args : Args) (fs : FS) (r : Draws)
    (hfmt : args.output_format = "json") :
    ((∃ resp, (MockInference.run args fs r).1 = RunResult.success resp) ∧
      RunResult.exitCode (MockInference.run args fs r).1 = 0 ∧
      ∀ e t, (MockInference.run args fs r).1 ≠ RunResult.failure e t) ∨
    ((∃ e t, (MockInference.run args fs r).1 = RunResult.failure e t) ∧
      RunResult.exitCode (MockInference.run args fs r).1 = 1 ∧
      ∀ resp, (MockInference.run args fs r).1 ≠ RunResult.success resp) := by
  simp only [MockInference.run, MockInference.body, hfmt, beq_self_eq_true, if_true]
  split
  · right
    exact ⟨⟨_, _, rfl⟩, rfl, fun resp h => by cases h⟩
  · split
    · right
      exact ⟨⟨_, _, rfl⟩, rfl, fun resp h => by cases h⟩
    · left
      exact ⟨⟨_, rfl⟩, rfl, fun e t h => by cases h⟩

/-- Witness for the amended C6 on a concrete invocation with no input
mode, which lands in the failure branch. -/
theorem claim_C6_two_way_exit_witness :
    ((∃ resp, (MockInference.run { model_path := "model.pth" } []
        { genreIdx := 0, moodIdx := 0, keyIdx := 0, bpmRaw := 120, genreConf := 1,
          moodConf := 1, bpmConf := 1, keyConf := 1, processing_time_seconds := 1,
          audio_duration_seconds := 1 }).1 = RunResult.success resp) ∧
      RunResult.exitCode (MockInference.run { model_path := "model.pth" } []
        { genreIdx := 0, moodIdx := 0, keyIdx := 0, bpmRaw := 120, genreConf := 1,
          moodConf := 1, bpmConf := 1, keyConf := 1, processing_time_seconds := 1,
          audio_duration_seconds := 1 }).1 = 0 ∧
      ∀ e t, (MockInference.run { model_path := "model.pth" } []
        { genreIdx := 0, moodIdx := 0, keyIdx := 0, bpmRaw := 120, genreConf := 1,
          moodConf := 1, bpmConf := 1, keyConf := 1, processing_time_seconds := 1,
          audio_duration_seconds := 1 }).1 ≠ RunResult.failure e t) ∨
    ((∃ e t, (MockInference.run { model_path := "model.pth" } []
        { genreIdx := 0, moodIdx := 0, keyIdx := 0, bpmRaw := 120, genreConf := 1,
          moodConf := 1, bpmConf := 1, keyConf := 1, processing_time_seconds := 1,
          audio_duration_seconds := 1 }).1 = RunResult.failure e t) ∧
      RunResult.exitCode (MockInference.run { model_path := "model.pth" } []
        { genreIdx := 0, moodIdx := 0, keyIdx := 0, bpmRaw := 120, genreConf := 1,
          moodConf := 1, bpmConf := 1, keyConf := 1, processing_time_seconds := 1,
          audio_duration_seconds := 1 }).1 = 1 ∧
      ∀ resp, (MockInference.run { model_path := "model.pth" } []
        { genreIdx := 0, moodIdx := 0, keyIdx := 0, bpmRaw := 120, genreConf := 1,
          moodConf := 1, bpmConf := 1, keyConf := 1, processing_time_seconds := 1,
          audio_duration_seconds := 1 }).1 ≠ RunResult.success resp) :=
  claim_C6_two_way_exit _ _ _ rfl

/-- Outcome of the JSON analyze check is a function of its transport
outcome alone. -/
theorem test_analyze_with_json_fst (t : Transport) (fs : FS) :
    (test_analyze_with_json t fs).1 = checkOutcome t := by
  cases t with
  | ok s b => cases b <;> rfl
  | exn => rfl

/-- Outcome of the upload check is a function of its transport outcome
alone. -/
theorem test_upload_endpoint_fst (t : Transport) (fs : FS) :
    (test_upload_endpoint t fs).1 = checkOutcome t := by
  cases t with
  | ok s b => cases b <;> rfl
  | exn => rfl

/-- Outcome of the preprocessed check is a function of its transport
outcome alone. -/
theorem test_preprocessed_endpoint_fst (t : Transport) (fs : FS) :
    (test_preprocessed_endpoint t fs).1 = checkOutcome t := by
  cases t with
  | ok s b => cases b <;> rfl
  | exn => rfl

/-- Results list of a full Harness run: always the five fixed names in
order, each paired with the outcome determined by the transport result of
its own endpoint only. -/
theorem TestApi.main_results (svc : Service) (fs : FS) :
    (TestApi.main svc fs).1 =
      [("Health Check", checkOutcome svc.health),
       ("API Info", checkOutcome svc.info),
       ("JSON Analysis", checkOutcome svc.analyze),
       ("File Upload", checkOutcome svc.upload),
       ("Preprocessed Data", checkOutcome svc.preprocessed)] := by
  simp only [TestApi.main, test_health_endpoint, test_info_endpoint,
    test_analyze_with_json_fst, test_upload_endpoint_fst,
    test_preprocessed_endpoint_fst]

/-- C7: every Harness run records exactly one outcome per check in order,
each outcome depending only on the transport result of its own endpoint
(so a failure in one check never prevents the later checks or alters the
earlier entries), an exception is recorded as a non-passing outcome, a
malformed response body is recorded as a non-passing outcome, and a
service that returns 500 for the upload check yields exactly one failing
entry while the health and info outcomes stay passing. -/
theorem claim_C7_check_isolation :
    (∀ svc fs, (TestApi.main svc fs).1 =
      [("Health Check", checkOutcome svc.health),
       ("API Info", checkOutcome svc.info),
       ("JSON Analysis", checkOutcome svc.analyze),
       ("File Upload", checkOutcome svc.upload),
       ("Preprocessed Data", checkOutcome svc.preprocessed)]) ∧
    checkOutcome Transport.exn = false ∧
    (∀ s, checkOutcome (Transport.ok s false) = false) ∧
    (TestApi.main
      { health := Transport.ok 200 true, info := Transport.ok 200 true,
        analyze := Transport.ok 200 true, upload := Transport.ok 500 true,
        preprocessed := Transport.ok 200 true } []).1 =
      [("Health Check", true), ("API Info", true), ("JSON Analysis", true),
       ("File Upload", false), ("Preprocessed Data", true)] := by
  refine ⟨TestApi.main_results, rfl, fun s => rfl, ?_⟩
  rw [TestApi.main_results]
  decide

/-- C8: the Harness always runs the five checks in the fixed order Health,
Info, JSON analyze, Upload analyze, Preprocessed analyze, reporting a
tally out of total 5; overall success holds exactly when passed equals
total; against a fully correct service the tally is 5 of 5, and against a
service failing only the preprocessed endpoint with 404 the tally is
4 of 5 and the single failing entry is named Preprocessed Data. -/
theorem claim_C8_fixed_order_and_tally :
    (∀ svc fs, (TestApi.main svc fs).1.map Prod.fst =
      ["Health Check", "API Info", "JSON Analysis", "File Upload",
       "Preprocessed Data"] ∧
      (TestApi.main svc fs).1.length = 5) ∧
    (∀ results : List (String × Bool),
      overallSuccess results = true ↔ passedCount results = results.length) ∧
    (passedCount (TestApi.main
      { health := Transport.ok 200 true, info := Transport.ok 200 true,
        analyze := Transport.ok 200 true, upload := Transport.ok 200 true,
        preprocessed := Transport.ok 200 true } []).1 = 5 ∧
     overallSuccess (TestApi.main
      { health := Transport.ok 200 true, info := Transport.ok 200 true,
        analyze := Transport.ok 200 true, upload := Transport.ok 200 true,
        preprocessed := Transport.ok 200 true } []).1 = true) ∧
    (passedCount (TestApi.main
      { health := Transport.ok 200 true, info := Transport.ok 200 true,
        analyze := Transport.ok 200 true, upload := Transport.ok 200 true,
        preprocessed := Transport.ok 404 true } []).1 = 4 ∧
     overallSuccess (TestApi.main
      { health := Transport.ok 200 true, info := Transport.ok 200 true,
        analyze := Transport.ok 200 true, upload := Transport.ok 200 true,
        preprocessed := Transport.ok 404 true } []).1 = false ∧
     (TestApi.main
      { health := Transport.ok 200 true, info := Transport.ok 200 true,
        analyze := Transport.ok 200 true, upload := Transport.ok 200 true,
        preprocessed := Transport.ok 404 true } []).1.filter
          (fun e => !e.2) = [("Preprocessed Data", false)]) := by
  refine ⟨fun svc fs => ⟨?_, ?_⟩, fun results => ?_, ⟨?_, ?_⟩, ⟨?_, ?_, ?_⟩⟩
  · rw [TestApi.main_results]; rfl
  · rw [TestApi.main_results]; rfl
  · simp [overallSuccess]
  · rw [TestApi.main_results]; decide
  · rw [TestApi.main_results]; decide
  · rw [TestApi.main_results]; decide
  · rw [TestApi.main_results]; decide
  · rw [TestApi.main_results]; decide

/-- Membership statement of the path existence test. -/
theorem FS.pathExists_iff (fs : FS) (p : String) :
    FS.pathExists fs p = true ↔ ∃ e ∈ fs, e.1 = p := by
  unfold FS.pathExists
  simp [List.any_eq_true]

/-- After removing a path and then removing another, the first path does
not exist. -/
theorem FS.pathExists_remove_remove (fs : FS) (p q : String) :
    FS.pathExists (FS.removeFile (FS.removeFile fs p) q) p = false := by
  rw [Bool.eq_false_iff]
  intro h
  rw [FS.pathExists_iff] at h
  obtain ⟨e, he, hep⟩ := h
  rw [FS.removeFile, List.mem_filter] at he
  obtain ⟨he1, _⟩ := he
  rw [FS.removeFile, List.mem_filter] at he1
  obtain ⟨_, hpred⟩ := he1
  simp [hep] at hpred

/-- Counterexample to C9 as stated: when the preprocessed check hits a
transport failure, the os.remove cleanup calls inside the try block are
skipped, and both synthesized artifacts persist on the filesystem after
the check records its non-passing outcome. -/
theorem claim_C9_counterexample :
    FS.pathExists (test_preprocessed_endpoint Transport.exn []).2
      featuresPath = true ∧
    FS.pathExists (test_preprocessed_endpoint Transport.exn []).2
      spectrogramPath = true ∧
    (test_preprocessed_endpoint Transport.exn []).1 = false := by
  decide

/-- C9 amended: the artifacts synthesized by the preprocessed check are
removed afterward whenever the POST completes and its response body
parses as JSON, regardless of the status code (pass or fail); when the
request raises (transport failure) or the body is malformed, the cleanup
inside the try block is skipped and both artifacts persist. -/
theorem claim_C9_cleanup_conditional (s : Nat) (fs : FS) :
    FS.pathExists (test_preprocessed_endpoint (Transport.ok s true) fs).2
      featuresPath = false ∧
    FS.pathExists (test_preprocessed_endpoint (Transport.ok s true) fs).2
      spectrogramPath = false ∧
    FS.pathExists (test_preprocessed_endpoint Transport.exn fs).2
      featuresPath = true ∧
    FS.pathExists (test_preprocessed_endpoint Transport.exn fs).2
      spectrogramPath = true ∧
    FS.pathExists (test_preprocessed_endpoint (Transport.ok s false) fs).2
      featuresPath = true ∧
    FS.pathExists (test_preprocessed_endpoint (Transport.ok s false) fs).2
      spectrogramPath = true := by
  have hmemf : ∀ g : FS, FS.pathExists
      (FS.write (FS.write g featuresPath 21) spectrogramPath 22)
      featuresPath = true := by
    intro g
    rw [FS.pathExists_iff]
    refine ⟨(featuresPath, 21), ?_, rfl⟩
    rw [FS.write, FS.write]
    refine List.mem_cons_of_mem _ ?_
    rw [FS.removeFile, List.mem_filter]
    exact ⟨List.mem_cons_self _ _, by decide⟩
  have hmems : ∀ g : FS, FS.pathExists
      (FS.write (FS.write g featuresPath 21) spectrogramPath 22)
      spectrogramPath = true := by
    intro g
    rw [FS.pathExists_iff]
    exact ⟨(spectrogramPath, 22), List.mem_cons_self _ _, rfl⟩
  refine ⟨?_, ?_, hmemf fs, hmems fs, hmemf fs, hmems fs⟩
  · exact FS.pathExists_remove_remove _ featuresPath spectrogramPath
  · exact FS.pathExists_removeFile_self _ spectrogramPath
